import Mathlib

/-!
Shallow embedding of the SHT3X temperature/humidity sensor driver
(Go package sht3x) and proofs about its behaviour.

Bytes are modelled as natural numbers reduced modulo 256 where the code
masks; 16-bit raw words as natural numbers; Go time.Duration values as
natural numbers counting nanoseconds; Go float32 arithmetic of the unit
converters as exact rational arithmetic; Go `(value, error)` returns as
`Except`.  The transport adapter (the external i2c bus) is a pair of
oracles for write and read.  Each driver operation additionally returns
the list of externally observable effects (bus writes, bus reads,
sleeps) it performed, in order, so that claims about "no subsequent
read" and waiting can be stated.
-/

namespace sht3x

/-- Errors surfaced by the driver: an underlying transport failure, or a
checksum mismatch carrying the received and the computed checksum. -/
inductive DriverError where
  | transport
  | checksumMismatch (received : Nat) (computed : Nat)
deriving DecidableEq, Repr

/-- The transport adapter: write a byte sequence (returning a byte count
or an error), read a requested number of bytes. -/
structure Bus where
  write : List Nat → Except DriverError Nat
  read : Nat → Except DriverError (List Nat)

/-- Externally observable effects of a driver operation, in order. -/
inductive Effect where
  | write (bytes : List Nat)
  | read (n : Nat)
  | sleep (ns : Nat)
deriving DecidableEq, Repr

/-- Go: `type MeasureRepeatability int`. -/
abbrev MeasureRepeatability := Int

/-- Low precision (iota + 1). -/
def RepeatabilityLow : MeasureRepeatability := 1

/-- Medium precision. -/
def RepeatabilityMedium : MeasureRepeatability := 2

/-- High precision. -/
def RepeatabilityHigh : MeasureRepeatability := 3

/-- Go time.Microsecond in nanoseconds. -/
def microsecond : Nat := 1000

/-- GetMeasureTime: how long to wait for the measure process to
complete, per precision; 0 on any undefined precision value. -/
def GetMeasureTime (v : MeasureRepeatability) : Nat :=
  if v = RepeatabilityLow then 4500 * microsecond
  else if v = RepeatabilityMedium then 6500 * microsecond
  else if v = RepeatabilityHigh then 15500 * microsecond
  else 0

/-- Single measure, high precision, clock stretching enabled. -/
def CMD_SINGLE_MEASURE_HIGH_CSE : List Nat := [0x2C, 0x06]

/-- Single measure, medium precision, clock stretching enabled. -/
def CMD_SINGLE_MEASURE_MEDIUM_CSE : List Nat := [0x2C, 0x0D]

/-- Single measure, low precision, clock stretching enabled. -/
def CMD_SINGLE_MEASURE_LOW_CSE : List Nat := [0x2C, 0x10]

/-- Single measure, high precision. -/
def CMD_SINGLE_MEASURE_HIGH : List Nat := [0x24, 0x00]

/-- Single measure, medium precision. -/
def CMD_SINGLE_MEASURE_MEDIUM : List Nat := [0x24, 0x0B]

/-- Single measure, low precision. -/
def CMD_SINGLE_MEASURE_LOW : List Nat := [0x24, 0x16]

/-- Read data measured by periodic acquisition mode. -/
def CMD_PERIOD_FETCH : List Nat := [0xE0, 0x00]

/-- Activate accelerated response time. -/
def CMD_ART : List Nat := [0x2B, 0x32]

/-- Interrupt periodic acquisition mode. -/
def CMD_BREAK : List Nat := [0x30, 0x93]

/-- Soft reset command. -/
def CMD_RESET : List Nat := [0x30, 0xA2]

/-- The sensor session state: Go struct SHT3X.  A nil Go slice is
modelled as the empty list. -/
structure SHT3X where
  lastStatusReg : Option Nat
  lastCmd : List Nat
  lastPeriodic : Int
  lastPrecision : MeasureRepeatability
deriving DecidableEq, Repr

/-- NewSHT3X: zero-valued session. -/
def NewSHT3X : SHT3X := ⟨none, [], 0, 0⟩

/-- Modelled from the spec: one shift step of the Checksum Unit
(calcCRC_SHT3X is not under src/).  If the high bit of the 8-bit
register is set, shift left and exclusive-or with polynomial 0x31, else
shift left; mask to 8 bits.  Iterated n times. -/
def crcShift : Nat → Nat → Nat
  | r, 0 => r
  | r, n + 1 => crcShift (if 0x80 ≤ r then ((2 * r) ^^^ 0x31) % 256 else (2 * r) % 256) n

/-- Modelled from the spec: the Checksum Unit, classic CRC-8 with
polynomial 0x31 over the data bytes, initialised with the given seed
(calcCRC_SHT3X is not under src/).  Each byte is exclusive-ored into the
running register and then 8 shift steps are applied. -/
def calcCRC_SHT3X (seed : Nat) (buf : List Nat) : Nat :=
  buf.foldl (fun crc b => crcShift ((crc ^^^ b) % 256) 8) (seed % 256)

/-- Modelled from the spec: big-endian 16-bit word from two bytes
(getU16BE is not under src/). -/
def getU16BE (b0 b1 : Nat) : Nat := b0 * 256 + b1

/-- A 3-byte wire data block: 2 data bytes plus a checksum byte. -/
structure DataBlock where
  data0 : Nat
  data1 : Nat
  crc : Nat
deriving DecidableEq, Repr

/-- Partition a byte stream into consecutive 3-byte data blocks. -/
def toBlocks : List Nat → List DataBlock
  | b0 :: b1 :: c :: rest => ⟨b0, b1, c⟩ :: toBlocks rest
  | _ => []

/-- Modelled from the spec: readDataToStruct (not under src/) reads
exactly n bytes via the transport adapter, failing with a transport
error when the read fails or returns the wrong number of bytes. -/
def readDataToStruct (bus : Bus) (n : Nat) :
    Except DriverError (List Nat) × List Effect :=
  match bus.read n with
  | .error e => (.error e, [.read n])
  | .ok bytes =>
      (if bytes.length = n then .ok bytes else .error .transport, [.read n])

/-- The per-block loop body of readDataWithCRCCheck: check each block's
checksum against the Checksum Unit's output with seed 0xFF, stopping at
the first mismatch, otherwise collecting the big-endian words. -/
def checkBlocks : List DataBlock → Except DriverError (List Nat)
  | [] => .ok []
  | b :: rest =>
      let computed := calcCRC_SHT3X 0xFF [b.data0, b.data1]
      if computed ≠ b.crc then .error (.checksumMismatch b.crc computed)
      else
        match checkBlocks rest with
        | .error e => .error e
        | .ok ws => .ok (getU16BE b.data0 b.data1 :: ws)

/-- readDataWithCRCCheck: read blockCount 3-byte blocks and verify each
block's checksum, returning the raw 16-bit words. -/
def readDataWithCRCCheck (bus : Bus) (blockCount : Nat) :
    Except DriverError (List Nat) × List Effect :=
  match readDataToStruct bus (3 * blockCount) with
  | (.error e, eff) => (.error e, eff)
  | (.ok bytes, eff) => (checkBlocks (toBlocks bytes), eff)

/-- initiateMeasure: write the command, record it as the session's last
command, then sleep for the precision's measure time. -/
def initiateMeasure (bus : Bus) (v : SHT3X) (cmd : List Nat)
    (precision : MeasureRepeatability) :
    Except DriverError Unit × SHT3X × List Effect :=
  match bus.write cmd with
  | .error e => (.error e, v, [.write cmd])
  | .ok _ =>
      (.ok (), { v with lastCmd := cmd },
        [.write cmd, .sleep (GetMeasureTime precision)])

/-- The command selection switch of ReadUncompTemperatureAndHumidity:
the command variable stays nil (the empty list) on an undefined
precision value. -/
def singleMeasureCmd (precision : MeasureRepeatability) : List Nat :=
  if precision = RepeatabilityLow then CMD_SINGLE_MEASURE_LOW
  else if precision = RepeatabilityMedium then CMD_SINGLE_MEASURE_MEDIUM
  else if precision = RepeatabilityHigh then CMD_SINGLE_MEASURE_HIGH
  else []

/-- ReadUncompTemperatureAndHumidity: select the single-measure command
for the precision, initiate the measurement, then read 2 checksummed
words; the first is temperature, the second humidity.  The Go zero
values returned alongside an error are modelled by the error
constructor of Except. -/
def ReadUncompTemperatureAndHumidity (bus : Bus) (v : SHT3X)
    (precision : MeasureRepeatability) :
    Except DriverError (Nat × Nat) × SHT3X × List Effect :=
  match initiateMeasure bus v (singleMeasureCmd precision) precision with
  | (.error e, v2, eff) => (.error e, v2, eff)
  | (.ok _, v2, eff1) =>
      match readDataWithCRCCheck bus 2 with
      | (.error e, eff2) => (.error e, v2, eff1 ++ eff2)
      | (.ok data, eff2) =>
          (.ok (data.getD 0 0, data.getD 1 0), v2, eff1 ++ eff2)

/-- Reset: write the soft-reset command, record it as last command, then
sleep the 1500 microsecond power-up time. -/
def Reset (bus : Bus) (v : SHT3X) :
    Except DriverError Unit × SHT3X × List Effect :=
  match bus.write CMD_RESET with
  | .error e => (.error e, v, [.write CMD_RESET])
  | .ok _ =>
      (.ok (), { v with lastCmd := CMD_RESET },
        [.write CMD_RESET, .sleep (1500 * microsecond)])

/-- Modelled from the spec: round half away from zero to an integer
(round32 is not under src/). -/
def roundHalfAway (y : ℚ) : ℤ :=
  if 0 ≤ y then ⌊y + 1 / 2⌋ else -⌊-y + 1 / 2⌋

/-- Modelled from the spec: rounding to a number of decimal places with
round-half-away-from-zero semantics (round32 is not under src/). -/
def round32 (x : ℚ) (places : Nat) : ℚ :=
  (roundHalfAway (x * 10 ^ places) : ℚ) / 10 ^ places

/-- Convert uncompensated humidity to relative humidity, percent.  The
Go float32 arithmetic is modelled exactly over the rationals. -/
def uncompHumidityToRelativeHumidity (uh : Nat) : ℚ :=
  round32 ((uh : ℚ) * 100 / (0x10000 - 1)) 2

/-- Convert uncompensated temperature to Celsius. -/
def uncompTemperatureToCelsius (ut : Nat) : ℚ :=
  round32 ((ut : ℚ) * 175 / (0x10000 - 1) - 45) 2

/-- Convert uncompensated temperature to Fahrenheit. -/
def uncompTemperatureToFarenheit (ut : Nat) : ℚ :=
  round32 ((ut : ℚ) * 315 / (0x10000 - 1) - 49) 2

/-- A wire image of n valid data blocks: the block BE EF 92 repeated
(0x92 is the checksum of the bytes BE EF with seed 0xFF). -/
def goodBytes : Nat → List Nat
  | 0 => []
  | k + 1 => 0xBE :: 0xEF :: 0x92 :: goodBytes k

/-- A concrete transport whose writes always succeed and whose reads
return valid blocks; used to evaluate the driver in closed theorems. -/
def goodBus : Bus :=
  ⟨fun _ => .ok 2, fun n => .ok (goodBytes (n / 3))⟩

/-- A concrete transport whose writes always fail. -/
def failBus : Bus :=
  ⟨fun _ => .error .transport, fun n => .ok (goodBytes (n / 3))⟩

/-- A concrete transport whose reads return a block with a wrong
checksum byte (the checksum of 00 00 is 0x81, not 0x00). -/
def badReadBus : Bus :=
  ⟨fun _ => .ok 2, fun _ => .ok [0, 0, 0]⟩

/-! ## Helper lemmas -/

theorem roundHalfAway_close (y : ℚ) : |(roundHalfAway y : ℚ) - y| ≤ 1 / 2 := by
  unfold roundHalfAway
  split
  · have h1 := Int.floor_le (y + 1 / 2)
    have h2 := Int.lt_floor_add_one (y + 1 / 2)
    rw [abs_le]
    constructor <;> linarith
  · have h1 := Int.floor_le (-y + 1 / 2)
    have h2 := Int.lt_floor_add_one (-y + 1 / 2)
    rw [abs_le]
    push_cast
    constructor <;> linarith

theorem round32_two_close (x : ℚ) : |round32 x 2 - x| ≤ 1 / 200 := by
  have h := roundHalfAway_close (x * 10 ^ (2 : ℕ))
  have e : round32 x 2 - x =
      ((roundHalfAway (x * 10 ^ (2 : ℕ)) : ℚ) - x * 10 ^ (2 : ℕ)) / 10 ^ (2 : ℕ) := by
    unfold round32
    ring
  rw [e, abs_div]
  have h100 : |((10 : ℚ) ^ (2 : ℕ))| = 100 := by norm_num
  rw [h100]
  linarith

theorem round32_two_hundredths (x : ℚ) :
    ∃ k : ℤ, round32 x 2 = (k : ℚ) / 100 := by
  refine ⟨roundHalfAway (x * 10 ^ (2 : ℕ)), ?_⟩
  unfold round32
  norm_num

theorem initiateMeasure_write_error (bus : Bus) (v : SHT3X) (cmd : List Nat)
    (p : MeasureRepeatability) (e : DriverError) (h : bus.write cmd = .error e) :
    initiateMeasure bus v cmd p = (.error e, v, [.write cmd]) := by
  unfold initiateMeasure
  rw [h]

theorem initiateMeasure_write_ok (bus : Bus) (v : SHT3X) (cmd : List Nat)
    (p : MeasureRepeatability) (n : Nat) (h : bus.write cmd = .ok n) :
    initiateMeasure bus v cmd p =
      (.ok (), { v with lastCmd := cmd },
        [.write cmd, .sleep (GetMeasureTime p)]) := by
  unfold initiateMeasure
  rw [h]

theorem readDataWithCRCCheck_effects (bus : Bus) (blockCount : Nat) :
    (readDataWithCRCCheck bus blockCount).2 = [.read (3 * blockCount)] := by
  unfold readDataWithCRCCheck readDataToStruct
  rcases h : bus.read (3 * blockCount) with e | bytes
  · simp [h]
  · by_cases hl : bytes.length = 3 * blockCount <;> simp [h, hl]

theorem readUncomp_write_error (bus : Bus) (v : SHT3X) (p : MeasureRepeatability)
    (e : DriverError) (h : bus.write (singleMeasureCmd p) = .error e) :
    ReadUncompTemperatureAndHumidity bus v p =
      (.error e, v, [.write (singleMeasureCmd p)]) := by
  unfold ReadUncompTemperatureAndHumidity
  rw [initiateMeasure_write_error bus v _ p e h]

theorem readUncomp_write_ok (bus : Bus) (v : SHT3X) (p : MeasureRepeatability)
    (n : Nat) (h : bus.write (singleMeasureCmd p) = .ok n) :
    ReadUncompTemperatureAndHumidity bus v p =
      ((match (readDataWithCRCCheck bus 2).1 with
        | .error e => .error e
        | .ok data => .ok (data.getD 0 0, data.getD 1 0)),
       { v with lastCmd := singleMeasureCmd p },
       [.write (singleMeasureCmd p), .sleep (GetMeasureTime p)] ++
         (readDataWithCRCCheck bus 2).2) := by
  unfold ReadUncompTemperatureAndHumidity
  rw [initiateMeasure_write_ok bus v _ p n h]
  rcases h2 : readDataWithCRCCheck bus 2 with ⟨r, eff2⟩
  cases r <;> simp [h2]

theorem reset_write_error (bus : Bus) (v : SHT3X) (e : DriverError)
    (h : bus.write CMD_RESET = .error e) :
    Reset bus v = (.error e, v, [.write CMD_RESET]) := by
  unfold Reset
  rw [h]

theorem reset_write_ok (bus : Bus) (v : SHT3X) (n : Nat)
    (h : bus.write CMD_RESET = .ok n) :
    Reset bus v = (.ok (), { v with lastCmd := CMD_RESET },
      [.write CMD_RESET, .sleep (1500 * microsecond)]) := by
  unfold Reset
  rw [h]

theorem checkBlocks_mismatch : ∀ l : List DataBlock,
    (∃ b ∈ l, calcCRC_SHT3X 0xFF [b.data0, b.data1] ≠ b.crc) →
    ∃ b ∈ l, calcCRC_SHT3X 0xFF [b.data0, b.data1] ≠ b.crc ∧
      checkBlocks l =
        .error (.checksumMismatch b.crc (calcCRC_SHT3X 0xFF [b.data0, b.data1]))
  | [], h => absurd h (by simp)
  | b :: rest, h => by
      by_cases hb : calcCRC_SHT3X 0xFF [b.data0, b.data1] = b.crc
      · have hr : ∃ c ∈ rest, calcCRC_SHT3X 0xFF [c.data0, c.data1] ≠ c.crc := by
          rcases h with ⟨c, hc, hcc⟩
          rcases List.mem_cons.mp hc with rfl | hmem
          · exact absurd hb hcc
          · exact ⟨c, hmem, hcc⟩
        rcases checkBlocks_mismatch rest hr with ⟨c, hcmem, hcne, hceq⟩
        exact ⟨c, List.mem_cons_of_mem b hcmem, hcne,
          by simp [checkBlocks, hb, hceq]⟩
      · exact ⟨b, List.mem_cons_self b rest, hb, by simp [checkBlocks, hb]⟩

theorem checkBlocks_ok : ∀ l : List DataBlock,
    (∀ b ∈ l, calcCRC_SHT3X 0xFF [b.data0, b.data1] = b.crc) →
    checkBlocks l = .ok (l.map fun b => getU16BE b.data0 b.data1)
  | [], _ => rfl
  | b :: rest, h => by
      have hb := h b (List.mem_cons_self b rest)
      have hr := checkBlocks_ok rest fun c hc => h c (List.mem_cons_of_mem b hc)
      simp [checkBlocks, hb, hr]

theorem toBlocks_length : ∀ bs : List Nat, (toBlocks bs).length = bs.length / 3
  | [] => by simp [toBlocks]
  | [_] => by simp [toBlocks]
  | [_, _] => by simp [toBlocks]
  | _ :: _ :: _ :: rest => by
      simp [toBlocks, toBlocks_length rest]
      omega

theorem readDataWithCRCCheck_result (bus : Bus) (blockCount : Nat)
    (bytes : List Nat) (hread : bus.read (3 * blockCount) = .ok bytes)
    (hlen : bytes.length = 3 * blockCount) :
    (readDataWithCRCCheck bus blockCount).1 = checkBlocks (toBlocks bytes) := by
  unfold readDataWithCRCCheck readDataToStruct
  rw [hread]
  simp [hlen]

/-! ## Claim theorems -/

/-- C1: If the transport read yields blockCount 3-byte blocks and any
block's checksum byte differs from the checksum computed with seed
0xFF over its 2 data bytes, readDataWithCRCCheck returns a checksum
mismatch error carrying both the received and the computed checksum of
a failing block, and returns no raw words at all. -/
theorem C1_checksum_mismatch (bus : Bus) (blockCount : Nat)
    (bytes : List Nat) (hread : bus.read (3 * blockCount) = .ok bytes)
    (hlen : bytes.length = 3 * blockCount)
    (hbad : ∃ b ∈ toBlocks bytes,
      calcCRC_SHT3X 0xFF [b.data0, b.data1] ≠ b.crc) :
    ∃ b ∈ toBlocks bytes,
      calcCRC_SHT3X 0xFF [b.data0, b.data1] ≠ b.crc ∧
      (readDataWithCRCCheck bus blockCount).1 =
        .error (.checksumMismatch b.crc
          (calcCRC_SHT3X 0xFF [b.data0, b.data1])) := by
  rcases checkBlocks_mismatch (toBlocks bytes) hbad with ⟨b, hmem, hne, heq⟩
  refine ⟨b, hmem, hne, ?_⟩
  rw [readDataWithCRCCheck_result bus blockCount bytes hread hlen, heq]

/-- C1 witness: a single block 00 00 00 whose checksum byte 0 differs
from the computed checksum 0x81. -/
theorem C1_checksum_mismatch_witness :
    badReadBus.read (3 * 1) = .ok [0, 0, 0] ∧
    ([0, 0, 0] : List Nat).length = 3 * 1 ∧
    (∃ b ∈ toBlocks [0, 0, 0],
      calcCRC_SHT3X 0xFF [b.data0, b.data1] ≠ b.crc) ∧
    ∃ b ∈ toBlocks [0, 0, 0],
      calcCRC_SHT3X 0xFF [b.data0, b.data1] ≠ b.crc ∧
      (readDataWithCRCCheck badReadBus 1).1 =
        .error (.checksumMismatch b.crc
          (calcCRC_SHT3X 0xFF [b.data0, b.data1])) :=
  ⟨rfl, rfl, ⟨⟨0, 0, 0⟩, by decide, by decide⟩,
    C1_checksum_mismatch badReadBus 1 [0, 0, 0] rfl rfl
      ⟨⟨0, 0, 0⟩, by decide, by decide⟩⟩

/-- C2: When the transport read yields blockCount 3-byte blocks and
every block passes its checksum check, readDataWithCRCCheck returns
exactly blockCount raw words, the i-th being the big-endian
interpretation of the 2 data bytes of the i-th block, in block
order. -/
theorem C2_read_success (bus : Bus) (blockCount : Nat) (bytes : List Nat)
    (hread : bus.read (3 * blockCount) = .ok bytes)
    (hlen : bytes.length = 3 * blockCount)
    (hgood : ∀ b ∈ toBlocks bytes,
      calcCRC_SHT3X 0xFF [b.data0, b.data1] = b.crc) :
    (readDataWithCRCCheck bus blockCount).1 =
      .ok ((toBlocks bytes).map fun b => getU16BE b.data0 b.data1) ∧
    ((toBlocks bytes).map fun b => getU16BE b.data0 b.data1).length =
      blockCount := by
  constructor
  · rw [readDataWithCRCCheck_result bus blockCount bytes hread hlen]
    exact checkBlocks_ok (toBlocks bytes) hgood
  · rw [List.length_map, toBlocks_length, hlen]
    omega

/-- C2 witness: two valid blocks BE EF 92 produce the two words
0xBEEF. -/
theorem C2_read_success_witness :
    goodBus.read (3 * 2) = .ok [0xBE, 0xEF, 0x92, 0xBE, 0xEF, 0x92] ∧
    ([0xBE, 0xEF, 0x92, 0xBE, 0xEF, 0x92] : List Nat).length = 3 * 2 ∧
    (∀ b ∈ toBlocks [0xBE, 0xEF, 0x92, 0xBE, 0xEF, 0x92],
      calcCRC_SHT3X 0xFF [b.data0, b.data1] = b.crc) ∧
    ((readDataWithCRCCheck goodBus 2).1 =
      .ok ((toBlocks [0xBE, 0xEF, 0x92, 0xBE, 0xEF, 0x92]).map
        fun b => getU16BE b.data0 b.data1) ∧
    ((toBlocks [0xBE, 0xEF, 0x92, 0xBE, 0xEF, 0x92]).map
      fun b => getU16BE b.data0 b.data1).length = 2) :=
  ⟨rfl, rfl, by decide,
    C2_read_success goodBus 2 [0xBE, 0xEF, 0x92, 0xBE, 0xEF, 0x92]
      rfl rfl (by decide)⟩

/-- C4: For every 16-bit raw word, the Celsius converter returns
rawTemp * 175 / 65535 - 45 rounded to 2 decimal places, the Fahrenheit
converter returns rawTemp * 315 / 65535 - 49 rounded to 2 decimal
places, and the relative-humidity converter returns
rawHumidity * 100 / 65535 rounded to 2 decimal places: each result is a
whole number of hundredths within half a hundredth of the exact linear
value.  The converters are total rational-valued functions, so none of
them can fail. -/
theorem C4_unit_converters (w : Nat) :
    (|uncompTemperatureToCelsius w - ((w : ℚ) * 175 / 65535 - 45)| ≤ 1 / 200 ∧
      ∃ k : ℤ, uncompTemperatureToCelsius w = (k : ℚ) / 100) ∧
    (|uncompTemperatureToFarenheit w - ((w : ℚ) * 315 / 65535 - 49)| ≤ 1 / 200 ∧
      ∃ k : ℤ, uncompTemperatureToFarenheit w = (k : ℚ) / 100) ∧
    (|uncompHumidityToRelativeHumidity w - ((w : ℚ) * 100 / 65535)| ≤ 1 / 200 ∧
      ∃ k : ℤ, uncompHumidityToRelativeHumidity w = (k : ℚ) / 100) := by
  have e : ((0x10000 : ℚ) - 1) = 65535 := by norm_num
  refine ⟨⟨?_, ?_⟩, ⟨?_, ?_⟩, ⟨?_, ?_⟩⟩
  · unfold uncompTemperatureToCelsius
    rw [e]
    exact round32_two_close _
  · unfold uncompTemperatureToCelsius
    exact round32_two_hundredths _
  · unfold uncompTemperatureToFarenheit
    rw [e]
    exact round32_two_close _
  · unfold uncompTemperatureToFarenheit
    exact round32_two_hundredths _
  · unfold uncompHumidityToRelativeHumidity
    rw [e]
    exact round32_two_close _
  · unfold uncompHumidityToRelativeHumidity
    exact round32_two_hundredths _

/-- C5: Raw word 0x0000 converts to -45.00 Celsius, -49.00 Fahrenheit
and 0.00 percent relative humidity; raw word 0xFFFF converts to 130.00
Celsius, 266.00 Fahrenheit and 100.00 percent relative humidity; raw
temperature word 0x6666 converts to 25.00 Celsius; raw humidity word
0x8000 converts to 50.00 percent relative humidity. -/
theorem C5_boundary_values :
    uncompTemperatureToCelsius 0x0000 = -45 ∧
    uncompTemperatureToFarenheit 0x0000 = -49 ∧
    uncompHumidityToRelativeHumidity 0x0000 = 0 ∧
    uncompTemperatureToCelsius 0xFFFF = 130 ∧
    uncompTemperatureToFarenheit 0xFFFF = 266 ∧
    uncompHumidityToRelativeHumidity 0xFFFF = 100 ∧
    uncompTemperatureToCelsius 0x6666 = 25 ∧
    uncompHumidityToRelativeHumidity 0x8000 = 50 := by
  unfold uncompTemperatureToCelsius uncompTemperatureToFarenheit
    uncompHumidityToRelativeHumidity round32 roundHalfAway
  norm_num

/-- C6: Command byte-pair selection is a pure mapping independent of
session history: Low selects 0x24 0x16, Medium 0x24 0x0B, High
0x24 0x00 (for every transport and session state the first effect of a
measurement is writing exactly that command), Reset always writes
0x30 0xA2, the clock-stretch variants are 0x2C 0x06 / 0x2C 0x0D /
0x2C 0x10, and the reserved constants PeriodicFetch,
AcceleratedResponseTime and Break are 0xE0 0x00, 0x2B 0x32,
0x30 0x93. -/
theorem C6_command_selection :
    singleMeasureCmd RepeatabilityLow = [0x24, 0x16] ∧
    singleMeasureCmd RepeatabilityMedium = [0x24, 0x0B] ∧
    singleMeasureCmd RepeatabilityHigh = [0x24, 0x00] ∧
    (∀ (bus : Bus) (v : SHT3X) (p : MeasureRepeatability), ∃ t,
      (ReadUncompTemperatureAndHumidity bus v p).2.2 =
        Effect.write (singleMeasureCmd p) :: t) ∧
    (∀ (bus : Bus) (v : SHT3X), ∃ t,
      (Reset bus v).2.2 = Effect.write [0x30, 0xA2] :: t) ∧
    CMD_SINGLE_MEASURE_LOW = [0x24, 0x16] ∧
    CMD_SINGLE_MEASURE_MEDIUM = [0x24, 0x0B] ∧
    CMD_SINGLE_MEASURE_HIGH = [0x24, 0x00] ∧
    CMD_SINGLE_MEASURE_HIGH_CSE = [0x2C, 0x06] ∧
    CMD_SINGLE_MEASURE_MEDIUM_CSE = [0x2C, 0x0D] ∧
    CMD_SINGLE_MEASURE_LOW_CSE = [0x2C, 0x10] ∧
    CMD_PERIOD_FETCH = [0xE0, 0x00] ∧
    CMD_ART = [0x2B, 0x32] ∧
    CMD_BREAK = [0x30, 0x93] ∧
    CMD_RESET = [0x30, 0xA2] := by
  refine ⟨rfl, rfl, rfl, ?_, ?_, rfl, rfl, rfl, rfl, rfl, rfl, rfl, rfl,
    rfl, rfl⟩
  · intro bus v p
    rcases h : bus.write (singleMeasureCmd p) with e | n
    · rw [readUncomp_write_error bus v p e h]
      exact ⟨[], rfl⟩
    · rw [readUncomp_write_ok bus v p n h]
      exact ⟨_, rfl⟩
  · intro bus v
    rcases h : bus.write CMD_RESET with e | n
    · rw [reset_write_error bus v e h]
      exact ⟨[], rfl⟩
    · rw [reset_write_ok bus v n h]
      exact ⟨_, rfl⟩

/-- C7: The minimum wait mapping returns exactly one duration per
defined precision — Low 4500 microseconds, Medium 6500 microseconds,
High 15500 microseconds — and after a successful write
initiateMeasure's observable behaviour is the write followed by a sleep
of exactly that duration. -/
theorem C7_measure_time :
    GetMeasureTime RepeatabilityLow = 4500 * 1000 ∧
    GetMeasureTime RepeatabilityMedium = 6500 * 1000 ∧
    GetMeasureTime RepeatabilityHigh = 15500 * 1000 ∧
    ∀ (bus : Bus) (v : SHT3X) (cmd : List Nat) (p : MeasureRepeatability)
      (n : Nat), bus.write cmd = .ok n →
      (initiateMeasure bus v cmd p).2.2 =
        [.write cmd, .sleep (GetMeasureTime p)] := by
  refine ⟨rfl, rfl, rfl, ?_⟩
  intro bus v cmd p n h
  rw [initiateMeasure_write_ok bus v cmd p n h]

/-- C7 witness: the mapping and the sleep evaluated on a concrete
transport at low precision. -/
theorem C7_measure_time_witness :
    (Bus.mk (fun _ => .ok 2) (fun _ => .ok [])).write [0x24, 0x16] =
      .ok 2 ∧
    (initiateMeasure (Bus.mk (fun _ => .ok 2) (fun _ => .ok []))
        NewSHT3X [0x24, 0x16] RepeatabilityLow).2.2 =
      [.write [0x24, 0x16], .sleep (GetMeasureTime RepeatabilityLow)] :=
  ⟨rfl, C7_measure_time.2.2.2 (Bus.mk (fun _ => .ok 2) (fun _ => .ok []))
    NewSHT3X [0x24, 0x16] RepeatabilityLow 2 rfl⟩

/-- C3: For every defined precision, ReadUncompTemperatureAndHumidity
first initiates the measurement with that precision, then reads 2
checksummed words; on success it returns the first word as temperature
and the second as humidity; a failure of either step is propagated as
the operation's error (the Go zero values returned beside the error
are the error constructor here), and the effect trace is the
initiation's effects followed by the read's effects. -/
theorem C3_read_uncompensated (bus : Bus) (v : SHT3X)
    (p : MeasureRepeatability)
    (_hp : p = RepeatabilityLow ∨ p = RepeatabilityMedium ∨
      p = RepeatabilityHigh) :
    (∀ e, (initiateMeasure bus v (singleMeasureCmd p) p).1 = .error e →
      (ReadUncompTemperatureAndHumidity bus v p).1 = .error e ∧
      (ReadUncompTemperatureAndHumidity bus v p).2.2 =
        (initiateMeasure bus v (singleMeasureCmd p) p).2.2) ∧
    ((initiateMeasure bus v (singleMeasureCmd p) p).1 = .ok () →
      (∀ e, (readDataWithCRCCheck bus 2).1 = .error e →
        (ReadUncompTemperatureAndHumidity bus v p).1 = .error e) ∧
      (∀ t h, (readDataWithCRCCheck bus 2).1 = .ok [t, h] →
        (ReadUncompTemperatureAndHumidity bus v p).1 = .ok (t, h)) ∧
      (ReadUncompTemperatureAndHumidity bus v p).2.2 =
        (initiateMeasure bus v (singleMeasureCmd p) p).2.2 ++
          (readDataWithCRCCheck bus 2).2) := by
  rcases hw : bus.write (singleMeasureCmd p) with e0 | n
  · have hi := initiateMeasure_write_error bus v (singleMeasureCmd p) p e0 hw
    have hu := readUncomp_write_error bus v p e0 hw
    constructor
    · intro e he
      rw [hi] at he
      simp only [Except.error.injEq] at he
      subst he
      rw [hi, hu]
      exact ⟨rfl, rfl⟩
    · intro hok
      rw [hi] at hok
      simp at hok
  · have hi := initiateMeasure_write_ok bus v (singleMeasureCmd p) p n hw
    have hu := readUncomp_write_ok bus v p n hw
    constructor
    · intro e he
      rw [hi] at he
      simp at he
    · intro _
      refine ⟨?_, ?_, ?_⟩
      · intro e he
        rw [hu]
        simp [he]
      · intro t h hok
        rw [hu]
        simp [hok]
      · rw [hu, hi]

/-- C3 witness: low precision on a transport delivering two valid
blocks; the read succeeds and the two words are returned in order. -/
theorem C3_read_uncompensated_witness :
    (RepeatabilityLow = RepeatabilityLow ∨
      RepeatabilityLow = RepeatabilityMedium ∨
      RepeatabilityLow = RepeatabilityHigh) ∧
    ((∀ e, (initiateMeasure goodBus NewSHT3X
          (singleMeasureCmd RepeatabilityLow) RepeatabilityLow).1 =
            .error e →
      (ReadUncompTemperatureAndHumidity goodBus NewSHT3X
          RepeatabilityLow).1 = .error e ∧
      (ReadUncompTemperatureAndHumidity goodBus NewSHT3X
          RepeatabilityLow).2.2 =
        (initiateMeasure goodBus NewSHT3X
          (singleMeasureCmd RepeatabilityLow) RepeatabilityLow).2.2) ∧
    ((initiateMeasure goodBus NewSHT3X
        (singleMeasureCmd RepeatabilityLow) RepeatabilityLow).1 =
          .ok () →
      (∀ e, (readDataWithCRCCheck goodBus 2).1 = .error e →
        (ReadUncompTemperatureAndHumidity goodBus NewSHT3X
          RepeatabilityLow).1 = .error e) ∧
      (∀ t h, (readDataWithCRCCheck goodBus 2).1 = .ok [t, h] →
        (ReadUncompTemperatureAndHumidity goodBus NewSHT3X
          RepeatabilityLow).1 = .ok (t, h)) ∧
      (ReadUncompTemperatureAndHumidity goodBus NewSHT3X
          RepeatabilityLow).2.2 =
        (initiateMeasure goodBus NewSHT3X
          (singleMeasureCmd RepeatabilityLow) RepeatabilityLow).2.2 ++
          (readDataWithCRCCheck goodBus 2).2)) :=
  ⟨Or.inl rfl,
    C3_read_uncompensated goodBus NewSHT3X RepeatabilityLow (Or.inl rfl)⟩

/-- C8: If the transport write fails, initiateMeasure, Reset and
ReadUncompTemperatureAndHumidity each return the transport error, the
session state is left unchanged, and the effect trace is exactly the
failed write — in particular no transport read is attempted. -/
theorem C8_write_failure (bus : Bus) (v : SHT3X) (p : MeasureRepeatability)
    (e : DriverError) :
    (∀ cmd, bus.write cmd = .error e →
      initiateMeasure bus v cmd p = (.error e, v, [.write cmd])) ∧
    (bus.write CMD_RESET = .error e →
      Reset bus v = (.error e, v, [.write CMD_RESET])) ∧
    (bus.write (singleMeasureCmd p) = .error e →
      ReadUncompTemperatureAndHumidity bus v p =
        (.error e, v, [.write (singleMeasureCmd p)])) :=
  ⟨fun cmd h => initiateMeasure_write_error bus v cmd p e h,
   fun h => reset_write_error bus v e h,
   fun h => readUncomp_write_error bus v p e h⟩

/-- C8 witness: on a transport whose writes always fail, all three
operations return the transport error with the fresh session state
unchanged and a trace holding only the failed write. -/
theorem C8_write_failure_witness :
    initiateMeasure failBus NewSHT3X CMD_SINGLE_MEASURE_LOW
        RepeatabilityLow =
      (.error .transport, NewSHT3X, [.write CMD_SINGLE_MEASURE_LOW]) ∧
    Reset failBus NewSHT3X =
      (.error .transport, NewSHT3X, [.write CMD_RESET]) ∧
    ReadUncompTemperatureAndHumidity failBus NewSHT3X RepeatabilityLow =
      (.error .transport, NewSHT3X,
        [.write (singleMeasureCmd RepeatabilityLow)]) :=
  ⟨(C8_write_failure failBus NewSHT3X RepeatabilityLow .transport).1
      CMD_SINGLE_MEASURE_LOW rfl,
   (C8_write_failure failBus NewSHT3X RepeatabilityLow .transport).2.1 rfl,
   (C8_write_failure failBus NewSHT3X RepeatabilityLow .transport).2.2 rfl⟩

/-- C9 counterexample: on a fresh session a successful initiateMeasure
at low precision leaves lastPrecision at its zero value — the given
precision is not recorded, contrary to the claim. -/
theorem C9_counterexample :
    (initiateMeasure goodBus NewSHT3X (singleMeasureCmd RepeatabilityLow)
        RepeatabilityLow).1 = .ok () ∧
    (initiateMeasure goodBus NewSHT3X (singleMeasureCmd RepeatabilityLow)
        RepeatabilityLow).2.1.lastPrecision ≠ RepeatabilityLow :=
  ⟨rfl, by decide⟩

/-- C9 (amended): after a successful initiateMeasure the session
records the written command as its last command; every other field,
including lastPrecision, keeps its previous value — the precision is
not recorded. -/
theorem C9_records_last_command (bus : Bus) (v : SHT3X)
    (p : MeasureRepeatability) (n : Nat)
    (h : bus.write (singleMeasureCmd p) = .ok n)
    (_hp : p = RepeatabilityLow ∨ p = RepeatabilityMedium ∨
      p = RepeatabilityHigh) :
    (initiateMeasure bus v (singleMeasureCmd p) p).1 = .ok () ∧
    (initiateMeasure bus v (singleMeasureCmd p) p).2.1 =
      { v with lastCmd := singleMeasureCmd p } := by
  rw [initiateMeasure_write_ok bus v (singleMeasureCmd p) p n h]
  exact ⟨rfl, rfl⟩

/-- C9 witness: the amended statement evaluated at low precision on a
fresh session. -/
theorem C9_records_last_command_witness :
    goodBus.write (singleMeasureCmd RepeatabilityLow) = .ok 2 ∧
    (RepeatabilityLow = RepeatabilityLow ∨
      RepeatabilityLow = RepeatabilityMedium ∨
      RepeatabilityLow = RepeatabilityHigh) ∧
    ((initiateMeasure goodBus NewSHT3X (singleMeasureCmd RepeatabilityLow)
        RepeatabilityLow).1 = .ok () ∧
    (initiateMeasure goodBus NewSHT3X (singleMeasureCmd RepeatabilityLow)
        RepeatabilityLow).2.1 =
      { NewSHT3X with lastCmd := singleMeasureCmd RepeatabilityLow }) :=
  ⟨rfl, Or.inl rfl,
    C9_records_last_command goodBus NewSHT3X RepeatabilityLow 2 rfl
      (Or.inl rfl)⟩

/-- C10: For every precision value outside the three defined constants,
GetMeasureTime returns the zero duration and the measurement is not
rejected: the selected command stays nil, so the driver writes the
empty byte sequence, sleeps zero time and proceeds to the 6-byte
read instead of returning a validation error. -/
theorem C10_invalid_precision (p : MeasureRepeatability)
    (h1 : p ≠ RepeatabilityLow) (h2 : p ≠ RepeatabilityMedium)
    (h3 : p ≠ RepeatabilityHigh) :
    GetMeasureTime p = 0 ∧ singleMeasureCmd p = [] ∧
    ∀ (bus : Bus) (v : SHT3X) (n : Nat), bus.write [] = .ok n →
      (ReadUncompTemperatureAndHumidity bus v p).2.2 =
        [.write [], .sleep 0, .read 6] := by
  have hg : GetMeasureTime p = 0 := by
    simp [GetMeasureTime, h1, h2, h3]
  have hc : singleMeasureCmd p = [] := by
    simp [singleMeasureCmd, h1, h2, h3]
  refine ⟨hg, hc, ?_⟩
  intro bus v n h
  have hw : bus.write (singleMeasureCmd p) = .ok n := by
    rw [hc]
    exact h
  rw [readUncomp_write_ok bus v p n hw, readDataWithCRCCheck_effects]
  simp [hc, hg]

/-- C10 witness: the undefined precision value 0 on a concrete
transport whose writes succeed. -/
theorem C10_invalid_precision_witness :
    ((0 : MeasureRepeatability) ≠ RepeatabilityLow) ∧
    ((0 : MeasureRepeatability) ≠ RepeatabilityMedium) ∧
    ((0 : MeasureRepeatability) ≠ RepeatabilityHigh) ∧
    (GetMeasureTime 0 = 0 ∧ singleMeasureCmd 0 = [] ∧
      ∀ (bus : Bus) (v : SHT3X) (n : Nat), bus.write [] = .ok n →
        (ReadUncompTemperatureAndHumidity bus v 0).2.2 =
          [.write [], .sleep 0, .read 6]) :=
  ⟨by decide, by decide, by decide,
    C10_invalid_precision 0 (by decide) (by decide) (by decide)⟩

end sht3x
